import Mathlib

/-!
Shallow embedding of the market-data aggregation layer of the Trading-saas
repository: the helper utilities (`src/utils/helpers.js`), the backend batch
quote endpoint (`backend/server.js`), and the client API services
(`src/services/apiService.js`).  Times are modelled as integers
(milliseconds, as produced by `Date.now()`), JS numbers used for prices as
rationals, and JS `Math.round` as the half-up rounding `round`.
-/

/-- JS `Math.round(x * 100) / 100`, the two-decimal rounding applied to every
price field in the repository.  `round` is `⌊x + 1/2⌋`, matching JS
`Math.round` (half toward positive infinity). -/
def round2 (x : Rat) : Rat := (round (x * 100) : Int) / 100

/-- Truthiness of a JS number held in an optional field: `undefined`/missing
and `0` are falsy, any other number is truthy. -/
def numTruthy : Option Rat → Bool
  | some x => x != 0
  | none => false

/-- JS `a || b` for an optional numeric field `a` with numeric fallback `b`:
the fallback is used when the field is missing or `0`. -/
def jsOr (a : Option Rat) (b : Rat) : Rat :=
  match a with
  | some x => if x = 0 then b else x
  | none => b

/-- JS `a || b` for optional string fields (empty string is falsy). -/
def jsOrS (a : Option String) (b : String) : String :=
  match a with
  | some x => if x = "" then b else x
  | none => b

/-! ## helpers.js: sanitizeInput -/

/-- The characters removed by `sanitizeInput`'s regular expression
`/[<>\x22'&]/g`, by code point: 60 `<`, 62 `>`, 34 double quote,
39 apostrophe, 38 `&`. -/
def bannedChar (c : Char) : Bool := c.toNat ∈ [60, 62, 34, 39, 38]

/-- Whitespace code points removed by JS `String.prototype.trim`:
tab, LF, VT, FF, CR, space, NBSP, line/paragraph separator, BOM. -/
def jsWhitespace (c : Char) : Bool :=
  c.toNat ∈ [9, 10, 11, 12, 13, 32, 160, 8232, 8233, 65279]

/-- JS `trim` on a character list: drop whitespace from both ends. -/
def jsTrim (l : List Char) : List Char :=
  ((l.dropWhile jsWhitespace).reverse.dropWhile jsWhitespace).reverse

/-- JS `s.trim()` on strings. -/
def jsTrimStr (s : String) : String := String.mk (jsTrim s.data)

/-- JS `s.toUpperCase()` for the ASCII strings this code handles:
character-wise upcasing. -/
def jsToUpper (s : String) : String := String.mk (s.data.map Char.toUpper)

/-- helpers.js `sanitizeInput`: a non-string input (modelled as `none`)
yields the empty string; otherwise the banned characters are removed, the
result is trimmed, and finally truncated to 100 characters
(`.replace(/[<>\x22'&]/g, '').trim().substring(0, 100)`). -/
def sanitizeInput (input : Option String) : String :=
  match input with
  | none => ""
  | some s => String.mk (((s.data.filter (fun c => !bannedChar c)).dropWhile jsWhitespace
      |>.reverse.dropWhile jsWhitespace |>.reverse).take 100)

/-! ## helpers.js: createRateLimiter

The JS closure keeps a `calls` array of grant timestamps.  On acquire it
shifts off every timestamp `t` with `t <= now - timeWindow`, and then:
if `calls.length >= maxCalls` it sleeps `calls[0] + timeWindow - now`
milliseconds and then runs `createRateLimiter(maxCalls, timeWindow)()` —
a freshly created limiter whose own `calls` array is empty.  For
`maxCalls ≥ 1` that fresh limiter grants immediately at the wake-up time and
pushes the timestamp into its own (immediately discarded) array, so the
original closure's array is left exactly as the shift loop left it.  For
`maxCalls = 0` the code would recurse forever; every theorem below assumes
`1 ≤ maxCalls`.  Otherwise (`calls.length < maxCalls`) the call is granted
at `now` and `now` is pushed onto the closure's array. -/

structure RLResult where
  grantTime : Int
  delay : Int
  calls : List Int
deriving Repr, DecidableEq

/-- One invocation of the limiter function returned by
`createRateLimiter(maxCalls, W)`, entered at time `now` with the closure's
current `calls` array; returns the grant time, the delay experienced by the
caller, and the closure's `calls` array after the invocation returns. -/
def rlAcquire (maxCalls : Nat) (W : Int) (now : Int) (calls : List Int) : RLResult :=
  let calls1 := calls.dropWhile (fun t => decide (t ≤ now - W))
  if maxCalls ≤ calls1.length then
    let wait := calls1.headD 0 + W - now
    { grantTime := now + wait, delay := wait, calls := calls1 }
  else
    { grantTime := now, delay := 0, calls := calls1 ++ [now] }

/-- Sequential back-to-back acquisitions: each call is issued the instant the
previous one is granted.  Returns the list of grant times, the time after the
last grant, and the closure's final `calls` array. -/
def rlRun (maxCalls : Nat) (W : Int) : Nat → Int → List Int → List Int × Int × List Int
  | 0, now, calls => ([], now, calls)
  | k + 1, now, calls =>
    let r := rlAcquire maxCalls W now calls
    let rest := rlRun maxCalls W k r.grantTime r.calls
    (r.grantTime :: rest.1, rest.2.1, rest.2.2)

/-! ## apiService.js: cache store

Both `EnhancedRealAPIService` and `APIService` keep a `Map` from string keys
to `{data, timestamp, duration}` entries.  The map is modelled as an
association list with unique keys; `Map.set` is delete-then-append (JS
preserves insertion order on overwrite, which no claim observes).  The
probabilistic `saveCacheToStorage` mirror on `set` is an external side
effect outside the modelled state. -/

structure CacheEntry (α : Type) where
  data : α
  timestamp : Int
  duration : Int
deriving Repr, DecidableEq

abbrev CacheMap (α : Type) : Type := List (String × CacheEntry α)

def mapGet {α : Type} (c : CacheMap α) (k : String) : Option (CacheEntry α) :=
  (c.find? (fun p => p.1 == k)).map (fun p => p.2)

def mapDelete {α : Type} (c : CacheMap α) (k : String) : CacheMap α :=
  c.filter (fun p => p.1 != k)

def mapSet {α : Type} (c : CacheMap α) (k : String) (v : CacheEntry α) : CacheMap α :=
  mapDelete c k ++ [(k, v)]

/-- apiService.js `getCachedData(key)`: a present entry younger than its own
duration is a hit and leaves the map untouched; otherwise
`this.cache.delete(key)` runs (a no-op when the key is absent) and `null`
is returned.  Returns the value read and the map after the read. -/
def getCachedData {α : Type} (now : Int) (c : CacheMap α) (k : String) :
    Option α × CacheMap α :=
  match mapGet c k with
  | some e => if now - e.timestamp < e.duration then (some e.data, c) else (none, mapDelete c k)
  | none => (none, mapDelete c k)

/-- apiService.js `setCachedData(key, data, duration)`. -/
def setCachedData {α : Type} (now : Int) (c : CacheMap α) (k : String) (d : α)
    (duration : Int) : CacheMap α :=
  mapSet c k { data := d, timestamp := now, duration := duration }

/-- apiService.js cache key for a batch quote request:
`stocks_$\x7bsymbols.join('_')\x7d` — the symbol list is joined in request
order, without sorting. -/
def cacheKey (symbols : List String) : String :=
  "stocks_" ++ String.intercalate "_" symbols

/-! ## backend/server.js: provider fetchers and the batch endpoint -/

/-- Normalized quote record assembled by the backend from a provider
response (presentation-only enrichment — `lastUpdated`, `recommendation`
and volume formatting, added by the response mapping — is omitted). -/
structure SQuote where
  symbol : String
  name : String
  price : Rat
  change : Rat
  changePercent : Rat
  high : Rat
  low : Rat
  openPrice : Rat
  previousClose : Rat
  volume : Int
  source : String
deriving Repr, DecidableEq

/-- The fields of `response.data.quoteResponse.result[0]` read by
`fetchFromYahoo`; each is optional, mirroring JS `||` fallbacks. -/
structure YahooQuoteData where
  displayName : Option String
  shortName : Option String
  regularMarketPrice : Option Rat
  regularMarketChange : Option Rat
  regularMarketChangePercent : Option Rat
  regularMarketDayHigh : Option Rat
  regularMarketDayLow : Option Rat
  regularMarketOpen : Option Rat
  regularMarketPreviousClose : Option Rat
  regularMarketVolume : Option Int
deriving Repr, DecidableEq

/-- Outcome of one Yahoo per-symbol HTTP request: the axios call threw
(timeout, auth, network — caught and logged by the loop), or the response
carried no `quoteResponse.result[0]`, or it carried quote data. -/
inductive YahooResp where
  | reqError (msg : String)
  | noQuote
  | ok (d : YahooQuoteData)
deriving Repr, DecidableEq

/-- backend/server.js `getCompanyName` fallback table (used when Yahoo
supplies neither displayName nor shortName); unknown symbols map to
themselves. -/
def serverCompanyName (symbol : String) : String :=
  match symbol with
  | "RELIANCE" => "Reliance Industries Ltd"
  | "TCS" => "Tata Consultancy Services"
  | "INFY" => "Infosys Limited"
  | "HDFCBANK" => "HDFC Bank Limited"
  | "ICICIBANK" => "ICICI Bank Limited"
  | _ => symbol

/-- The quote `fetchFromYahoo` pushes for a symbol whose response carried a
truthy `regularMarketPrice`. -/
def yahooQuote (symbol : String) (d : YahooQuoteData) : SQuote :=
  { symbol := symbol
    name := jsOrS d.displayName (jsOrS d.shortName (serverCompanyName symbol))
    price := round2 (jsOr d.regularMarketPrice 0)
    change := round2 (jsOr d.regularMarketChange 0)
    changePercent := round2 (jsOr d.regularMarketChangePercent 0)
    high := round2 (jsOr d.regularMarketDayHigh (jsOr d.regularMarketPrice 0))
    low := round2 (jsOr d.regularMarketDayLow (jsOr d.regularMarketPrice 0))
    openPrice := round2 (jsOr d.regularMarketOpen (jsOr d.regularMarketPreviousClose 0))
    previousClose := round2 (jsOr d.regularMarketPreviousClose (jsOr d.regularMarketPrice 0))
    volume := d.regularMarketVolume.getD 0
    source := "Yahoo Finance" }

/-- One step of `fetchFromYahoo`'s per-symbol loop: a thrown request error
is caught and skipped, a response missing quote data or a falsy
`regularMarketPrice` is skipped, otherwise the quote is pushed. -/
def yahooStep (oracle : String → YahooResp) (acc : List SQuote) (s : String) : List SQuote :=
  match oracle s with
  | .ok d => if numTruthy d.regularMarketPrice then acc ++ [yahooQuote s d] else acc
  | _ => acc

/-- backend/server.js `fetchFromYahoo(symbols)`: iterates the first 10
symbols, swallowing every per-symbol failure; it never throws. -/
def fetchFromYahoo (oracle : String → YahooResp) (symbols : List String) : List SQuote :=
  (symbols.take 10).foldl (yahooStep oracle) []

/-- The fields of an Upstox quote response consumed by `fetchFromUpstox`,
together with the instrument name from the instruments map. -/
structure UpstoxData where
  name : String
  lastPrice : Rat
  previousClose : Rat
  volume : Option Int
  ohlcHigh : Option Rat
  ohlcLow : Option Rat
  ohlcOpen : Option Rat
deriving Repr, DecidableEq

/-- Outcome of one Upstox per-symbol iteration: the symbol is absent from
the instruments map (`continue`), the request threw (caught and logged),
the response status was not `success`, or quote data arrived. -/
inductive UpstoxResp where
  | noInstrument
  | reqError (msg : String)
  | notSuccess
  | ok (d : UpstoxData)
deriving Repr, DecidableEq

/-- The quote `fetchFromUpstox` pushes on a successful per-symbol response.
JS `data.last_price - data.previous_close || 0` only replaces `NaN`, which the
rational model cannot produce, so the difference is kept; the `changePercent`
ternary guards division by a falsy `previous_close`. -/
def upstoxQuote (symbol : String) (d : UpstoxData) : SQuote :=
  { symbol := symbol
    name := d.name
    price := round2 d.lastPrice
    change := round2 (d.lastPrice - d.previousClose)
    changePercent := round2 (if d.previousClose ≠ 0 then
        (d.lastPrice - d.previousClose) / d.previousClose * 100 else 0)
    high := round2 (jsOr d.ohlcHigh (jsOr (some d.lastPrice) 0))
    low := round2 (jsOr d.ohlcLow (jsOr (some d.lastPrice) 0))
    openPrice := round2 (jsOr d.ohlcOpen (jsOr (some d.previousClose) 0))
    previousClose := round2 (jsOr (some d.previousClose) d.lastPrice)
    volume := d.volume.getD 0
    source := "Upstox" }

/-- One step of `fetchFromUpstox`'s per-symbol loop: every per-symbol
failure mode is swallowed. -/
def upstoxStep (oracle : String → UpstoxResp) (acc : List SQuote) (s : String) : List SQuote :=
  match oracle s with
  | .ok d => acc ++ [upstoxQuote s d]
  | _ => acc

/-- backend/server.js `fetchFromUpstox(symbols)`: throws
`Upstox access token not configured` up front when no token is configured;
otherwise iterates the first 10 symbols, swallowing per-symbol failures. -/
def fetchFromUpstox (tokenConfigured : Bool) (oracle : String → UpstoxResp)
    (symbols : List String) : Except String (List SQuote) :=
  if tokenConfigured = false then .error "Upstox access token not configured"
  else .ok ((symbols.take 10).foldl (upstoxStep oracle) [])

/-- One entry of the batch endpoint's `errors` array:
`{source, error, symbols: remainingSymbols}`. -/
structure ProviderError where
  source : String
  error : String
  symbols : List String
deriving Repr, DecidableEq

/-- The upstream world the batch endpoint talks to: whether the Upstox
access token is configured, and the per-symbol behaviour of each provider
during this request. -/
structure BatchEnv where
  upstoxToken : Bool
  upstox : String → UpstoxResp
  yahoo : String → YahooResp

/-- The `switch (currentSource)` dispatch inside the batch loop; an unknown
source name throws. -/
def fetchSource (env : BatchEnv) (src : String) (symbols : List String) :
    Except String (List SQuote) :=
  if src = "upstox" then fetchFromUpstox env.upstoxToken env.upstox symbols
  else if src = "yahoo" then .ok (fetchFromYahoo env.yahoo symbols)
  else .error ("Unknown source: " ++ src)

/-- Loop state of the `POST /api/stocks/batch` handler; `trace` is ghost
instrumentation recording each provider invocation together with the symbol
list it was invoked with (the code itself keeps no such log). -/
structure BatchSt where
  results : List SQuote
  errors : List ProviderError
  succ : Nat
  trace : List (String × List String)
deriving Repr, DecidableEq

/-- One iteration of `for (const currentSource of sources)`: stop when
enough results have accumulated or no symbol remains unsatisfied; otherwise
fetch the remaining symbols from this source, appending its results on
success and recording one `ProviderFailure` on a thrown provider-level
error. -/
def batchStep (env : BatchEnv) (symbols : List String) (st : BatchSt) (src : String) :
    BatchSt :=
  if symbols.length ≤ st.succ then st
  else
    let remaining := symbols.filter (fun s => !(st.results.any (fun r => r.symbol == s)))
    if remaining.isEmpty then st
    else
      match fetchSource env src remaining with
      | .ok rs =>
        { st with results := st.results ++ rs, succ := st.succ + rs.length,
                  trace := st.trace ++ [(src, remaining)] }
      | .error e =>
        { st with errors := st.errors ++ [⟨src, e, remaining⟩],
                  trace := st.trace ++ [(src, remaining)] }

/-- The HTTP response of the batch endpoint: 400 validation failure, 503
total failure carrying the accumulated `errors`, or 200 success carrying
`data` and `errors` (presentation-only enhancement of `data` omitted). -/
inductive BatchResponse where
  | badRequest (error : String) (message : String)
  | svcUnavailable (error : String) (message : String) (errors : List ProviderError)
  | ok (data : List SQuote) (errors : List ProviderError)
deriving Repr, DecidableEq

/-- backend/server.js `POST /api/stocks/batch`: validates the symbol list,
iterates the configured sources (`['upstox', 'yahoo']` when `source` is
`auto`), and returns 503 when `results` ends empty, 200 otherwise.  Also
returns the ghost invocation trace. -/
def batchHandler (env : BatchEnv) (symbols : List String) (source : String) :
    BatchResponse × List (String × List String) :=
  if symbols.isEmpty then
    (.badRequest "Invalid request" "symbols array is required and must not be empty", [])
  else if 20 < symbols.length then
    (.badRequest "Too many symbols" "Maximum 20 symbols allowed per request", [])
  else
    let sources := if source = "auto" then ["upstox", "yahoo"] else [source]
    let st := sources.foldl (batchStep env symbols) ⟨[], [], 0, []⟩
    if st.results.isEmpty then
      (.svcUnavailable "All stock data sources failed"
        "Unable to fetch stock data from any API provider" st.errors, st.trace)
    else
      (.ok st.results st.errors, st.trace)

/-- A Yahoo per-symbol outcome that contributes no quote: a thrown request
error, a response without quote data, or a falsy `regularMarketPrice`. -/
def yahooSymbolFails (r : YahooResp) : Bool :=
  match r with
  | .ok d => !numTruthy d.regularMarketPrice
  | _ => true

/-- An Upstox per-symbol outcome that contributes no quote. -/
def upstoxSymbolFails (r : UpstoxResp) : Bool :=
  match r with
  | .ok _ => false
  | _ => true

/-! ## apiService.js: stock records and the two gateway variants -/

/-- Client-side stock record.  `source` is the provider tag carried by
backend data; synthetic records produced by `generateRealisticStockData`
carry no `source` property, modelled as `none`.  Presentation-only fields
(recommendation, marketCap, pe, dividend, formatted volume, lastUpdated)
are omitted. -/
structure StockRec where
  symbol : String
  name : String
  price : Rat
  change : Rat
  changePercent : Rat
  high : Rat
  low : Rat
  openPrice : Rat
  previousClose : Rat
  source : Option String
deriving Repr, DecidableEq

/-- CACHE_DURATIONS.STOCK_DATA (5 minutes, in milliseconds). -/
def STOCK_DATA_TTL : Int := 5 * 60 * 1000

/-- EnhancedRealAPIService / APIService `getCompanyName` table; unknown
symbols map to themselves. -/
def companyName (symbol : String) : String :=
  match symbol with
  | "RELIANCE" => "Reliance Industries Ltd"
  | "TCS" => "Tata Consultancy Services"
  | "INFY" => "Infosys Limited"
  | "HDFCBANK" => "HDFC Bank Limited"
  | "ICICIBANK" => "ICICI Bank Limited"
  | "HINDUNILVR" => "Hindustan Unilever Ltd"
  | "BAJFINANCE" => "Bajaj Finance Limited"
  | "KOTAKBANK" => "Kotak Mahindra Bank"
  | "LT" => "Larsen & Toubro Ltd"
  | "ASIANPAINT" => "Asian Paints Limited"
  | "MARUTI" => "Maruti Suzuki India Ltd"
  | "SBIN" => "State Bank of India"
  | "NESTLEIND" => "Nestle India Limited"
  | "WIPRO" => "Wipro Limited"
  | "HCLTECH" => "HCL Technologies Ltd"
  | "AXISBANK" => "Axis Bank Limited"
  | "TITAN" => "Titan Company Limited"
  | "SUNPHARMA" => "Sun Pharmaceutical Industries"
  | "TECHM" => "Tech Mahindra Limited"
  | "ULTRACEMCO" => "UltraTech Cement Limited"
  | _ => symbol

/-- EnhancedRealAPIService `processStockData`: rounds every numeric field of
each backend record (indicator/formatting enrichment and the
`lastKnownStockData` storage mirror are outside the modelled fields). -/
def processStockData (stockData : List StockRec) : List StockRec :=
  stockData.map (fun stock =>
    { stock with
      price := round2 stock.price
      change := round2 stock.change
      changePercent := round2 stock.changePercent
      high := round2 stock.high
      low := round2 stock.low
      openPrice := round2 stock.openPrice
      previousClose := round2 stock.previousClose })

/-- The world one `EnhancedRealAPIService.getStockData` call runs in:
network flag, the outcome of the rate-limited backend request (an `Except`
covering HTTP errors, timeouts, `success: false` and empty `data`, all of
which throw inside the request function), and the `lastKnownStockData`
snapshot held in durable storage, if any. -/
structure EnhancedEnv where
  isOnline : Bool
  backendResult : Except String (List StockRec)
  fallbackStore : Option (Int × List StockRec)

/-- EnhancedRealAPIService `getStockData(symbols)` (the "No Mock Data"
variant): cache hit returns the cached payload; offline throws; a backend
success is processed, cached for `STOCK_DATA_TTL` and returned; on a thrown
backend failure the catch block returns the durable `lastKnownStockData`
snapshot when it is younger than 24 hours, and otherwise rethrows
`Failed to fetch stock data: ...`.  Returns the outcome and the cache map
after the call. -/
def enhancedGetStockData (env : EnhancedEnv) (now : Int)
    (cache : CacheMap (List StockRec)) (symbols : List String) :
    Except String (List StockRec) × CacheMap (List StockRec) :=
  match getCachedData now cache (cacheKey symbols) with
  | (some d, c1) => (.ok d, c1)
  | (none, c1) =>
    if env.isOnline = false then (.error "No internet connection available", c1)
    else
      match env.backendResult with
      | .ok data =>
        (.ok (processStockData data),
         setCachedData now c1 (cacheKey symbols) (processStockData data) STOCK_DATA_TTL)
      | .error e =>
        match env.fallbackStore with
        | some (ts, d) =>
          if now - ts < 24 * 60 * 60 * 1000 then (.ok d, c1)
          else (.error ("Failed to fetch stock data: " ++ e), c1)
        | none => (.error ("Failed to fetch stock data: " ++ e), c1)

/-- One `{price, basePrice, volume}` record of APIService's mock price
table. -/
structure MockPrice where
  price : Rat
  basePrice : Rat
  volume : Rat
deriving Repr, DecidableEq

/-- APIService `getDefaultMockPrices` (the full table). -/
def defaultMockPrices (symbol : String) : Option MockPrice :=
  match symbol with
  | "RELIANCE" => some ⟨2847.50, 2850, 2.5⟩
  | "TCS" => some ⟨3324.25, 3320, 1.8⟩
  | "INFY" => some ⟨1456.75, 1460, 3.2⟩
  | "HDFCBANK" => some ⟨1734.20, 1730, 4.1⟩
  | "ICICIBANK" => some ⟨967.85, 970, 5.3⟩
  | "HINDUNILVR" => some ⟨2687.90, 2690, 1.2⟩
  | "BAJFINANCE" => some ⟨6789.45, 6800, 0.8⟩
  | "KOTAKBANK" => some ⟨1876.30, 1880, 2.1⟩
  | "LT" => some ⟨3456.80, 3450, 1.5⟩
  | "ASIANPAINT" => some ⟨2934.65, 2940, 0.9⟩
  | "MARUTI" => some ⟨10234.20, 10250, 0.6⟩
  | "SBIN" => some ⟨567.45, 570, 8.9⟩
  | "NESTLEIND" => some ⟨23456.75, 23500, 0.3⟩
  | "WIPRO" => some ⟨445.60, 448, 4.7⟩
  | "HCLTECH" => some ⟨1234.85, 1230, 2.8⟩
  | "AXISBANK" => some ⟨1098.25, 1100, 3.4⟩
  | "TITAN" => some ⟨3245.90, 3250, 1.1⟩
  | "SUNPHARMA" => some ⟨1067.35, 1070, 2.3⟩
  | "TECHM" => some ⟨1456.70, 1460, 1.9⟩
  | "ULTRACEMCO" => some ⟨8765.25, 8800, 0.4⟩
  | _ => none

/-- APIService `generateRealisticStockData(symbols)`: one synthetic record
per symbol, built from the mock price table (or random defaults when the
symbol is unknown) and fresh `Math.random()` draws.  `rand` supplies the
random draws: the record for the symbol at index `i` consumes
`rand (7*i) .. rand (7*i+4)` (table-miss base price, table-miss previous
close, high, low, open).  The synthetic volume, recommendation, marketCap,
pe and dividend outputs are presentation-only and outside the modelled
fields; no `source` property is set. -/
def generateRealisticStockData (mockPrices : String → Option MockPrice)
    (rand : Nat → Rat) (symbols : List String) : List StockRec :=
  symbols.enum.map (fun p =>
    let i := p.1
    let symbol := p.2
    let mockData := (mockPrices symbol).getD
      ⟨1000 + rand (7 * i) * 2000, 1000 + rand (7 * i + 1) * 2000, 1.0⟩
    let currentPrice := mockData.price
    let previousClose := mockData.basePrice
    let change := currentPrice - previousClose
    let changePercent := change / previousClose * 100
    let volatilityRange := currentPrice * (2 / 100)
    let high := currentPrice + rand (7 * i + 2) * volatilityRange
    let low := currentPrice - rand (7 * i + 3) * volatilityRange
    let openP := previousClose + (rand (7 * i + 4) - 1 / 2) * volatilityRange * (1 / 2)
    { symbol := symbol
      name := companyName symbol
      price := round2 currentPrice
      change := round2 change
      changePercent := round2 changePercent
      high := round2 (max high currentPrice)
      low := round2 (min low currentPrice)
      openPrice := round2 openP
      previousClose := round2 previousClose
      source := none })

/-- The world one `APIService.getStockData` call runs in.  `backendData` is
the outcome of `getStockDataFromBackend`: a thrown error, or `none` when the
backend replied `success: false` (the method returns `null`), or the data
list. -/
structure ApiEnv where
  backendAvailable : Bool
  isOnline : Bool
  backendData : Except String (Option (List StockRec))
  mockPrices : String → Option MockPrice
  rand : Nat → Rat

/-- APIService `getStockData(symbols)` (the self-contained variant): cache
hit returns the cached payload; a nonempty backend result is cached and
returned; every other outcome — backend unavailable, offline, thrown
backend error, `null` or empty backend data — falls through to
`generateRealisticStockData`, whose output is cached for 60 s and returned.
The function never surfaces an error (the result is always `.ok`). -/
def apiGetStockData (env : ApiEnv) (now : Int) (cache : CacheMap (List StockRec))
    (symbols : List String) : Except String (List StockRec) × CacheMap (List StockRec) :=
  match getCachedData now cache (cacheKey symbols) with
  | (some d, c1) => (.ok d, c1)
  | (none, c1) =>
    if env.backendAvailable && env.isOnline then
      match env.backendData with
      | .ok (some data) =>
        if data.length > 0 then (.ok data, setCachedData now c1 (cacheKey symbols) data STOCK_DATA_TTL)
        else (.ok (generateRealisticStockData env.mockPrices env.rand symbols),
              setCachedData now c1 (cacheKey symbols)
                (generateRealisticStockData env.mockPrices env.rand symbols) 60000)
      | .ok none =>
        (.ok (generateRealisticStockData env.mockPrices env.rand symbols),
         setCachedData now c1 (cacheKey symbols)
           (generateRealisticStockData env.mockPrices env.rand symbols) 60000)
      | .error _ =>
        (.ok (generateRealisticStockData env.mockPrices env.rand symbols),
         setCachedData now c1 (cacheKey symbols)
           (generateRealisticStockData env.mockPrices env.rand symbols) 60000)
    else
      (.ok (generateRealisticStockData env.mockPrices env.rand symbols),
       setCachedData now c1 (cacheKey symbols)
         (generateRealisticStockData env.mockPrices env.rand symbols) 60000)

/-! ## apiService.js: searchStocks -/

/-- helpers.js STOCK_SYMBOLS.INDIAN. -/
def STOCK_SYMBOLS_INDIAN : List String :=
  ["RELIANCE", "TCS", "INFY", "HDFCBANK", "ICICIBANK",
   "HINDUNILVR", "BAJFINANCE", "KOTAKBANK", "LT", "ASIANPAINT",
   "MARUTI", "SBIN", "NESTLEIND", "WIPRO", "HCLTECH",
   "AXISBANK", "TITAN", "SUNPHARMA", "TECHM", "ULTRACEMCO"]

/-- helpers.js STOCK_SYMBOLS.US. -/
def STOCK_SYMBOLS_US : List String :=
  ["AAPL", "MSFT", "GOOGL", "AMZN", "TSLA",
   "META", "NVDA", "NFLX", "CRM", "ADBE"]

/-- JS `hay.includes(needle)`: substring containment. -/
def containsSub (hay needle : String) : Bool :=
  hay.data.tails.any (fun t => needle.data.isPrefixOf t)

/-- One record of a backend `/search/stocks` result; only its `symbol`
field is consumed by `searchStocks`. -/
structure SearchResult where
  symbol : String
deriving Repr, DecidableEq

/-- Ghost log of the observable interactions `searchStocks` performs:
quote fetches through `getStockData` and backend search requests. -/
inductive SearchEffect where
  | stockFetch (symbols : List String)
  | backendSearch (query : String)
deriving Repr, DecidableEq

/-- The collaborators one `EnhancedRealAPIService.searchStocks` call uses:
`getStockData` (which may throw) and the rate-limited backend search
request (whose `Except.error` covers HTTP errors, timeouts and non-`ok`
statuses, all thrown inside the request function). -/
structure SearchEnv where
  getStockDataF : List String → Except String (List StockRec)
  backendSearchF : String → Except String (List SearchResult)

/-- The `exactMatches` filter of `searchStocks`: known symbols equal to the
sanitized query, or whose company name contains it. -/
def searchExactMatches (sanitizedQuery : String) : List String :=
  (STOCK_SYMBOLS_INDIAN ++ STOCK_SYMBOLS_US).filter (fun symbol =>
    symbol == sanitizedQuery ||
      containsSub (jsToUpper (companyName symbol)) sanitizedQuery)

/-- EnhancedRealAPIService `searchStocks(query)`: a falsy query returns `[]`
immediately (no cache or network interaction); otherwise the sanitized
upper-cased query is matched against the known symbol lists and company
names, falling back to the backend search; every exception thrown inside the
body is caught and resolved to `[]`.  Returns the result list and the ghost
effect log. -/
def searchStocksM (env : SearchEnv) (query : Option String) :
    List StockRec × List SearchEffect :=
  match query with
  | none => ([], [])
  | some q =>
    if q.length < 1 then ([], [])
    else
      if (searchExactMatches (jsToUpper (sanitizeInput (some q)))).isEmpty = false then
        match env.getStockDataF
            ((searchExactMatches (jsToUpper (sanitizeInput (some q)))).take 10) with
        | .ok l =>
          (l, [.stockFetch ((searchExactMatches (jsToUpper (sanitizeInput (some q)))).take 10)])
        | .error _ =>
          ([], [.stockFetch ((searchExactMatches (jsToUpper (sanitizeInput (some q)))).take 10)])
      else
        match env.backendSearchF (jsToUpper (sanitizeInput (some q))) with
        | .error _ => ([], [.backendSearch (jsToUpper (sanitizeInput (some q)))])
        | .ok results =>
          if results.isEmpty then ([], [.backendSearch (jsToUpper (sanitizeInput (some q)))])
          else
            match env.getStockDataF ((results.map (fun r => r.symbol)).take 5) with
            | .ok l =>
              (l, [.backendSearch (jsToUpper (sanitizeInput (some q))),
                   .stockFetch ((results.map (fun r => r.symbol)).take 5)])
            | .error _ =>
              ([], [.backendSearch (jsToUpper (sanitizeInput (some q))),
                    .stockFetch ((results.map (fun r => r.symbol)).take 5)])

/-- The `lastKnownStockData` durable snapshot cannot mask a failure: it is
absent, or at least 24 hours old (`Date.now() - fallbackCache.timestamp`
not below the 24-hour cutoff). -/
def fallbackUnusable (env : EnhancedEnv) (now : Int) : Prop :=
  match env.fallbackStore with
  | none => True
  | some (ts, _) => 24 * 60 * 60 * 1000 ≤ now - ts

/-- Concrete Upstox quote data for RELIANCE, used only in witnesses. -/
def uRel : UpstoxData := ⟨"Reliance Industries Ltd", 2847, 2850, some 2500000, none, none, none⟩

/-- Concrete Upstox quote data for TCS, used only in witnesses. -/
def uTcs : UpstoxData := ⟨"Tata Consultancy Services", 3324, 3320, some 1800000, none, none, none⟩

/-- Concrete Yahoo quote data for INFY, used only in witnesses. -/
def yInf : YahooQuoteData :=
  ⟨none, some "Infosys Limited", some 1456, some (-3), some (-1),
   none, none, none, none, some 3200000⟩

/-- Concrete provider world for the partial-success witness: Upstox serves
RELIANCE and TCS and has no instrument for anything else; Yahoo serves
INFY. -/
def envC3 : BatchEnv :=
  ⟨true,
   fun s => if s = "RELIANCE" then .ok uRel else if s = "TCS" then .ok uTcs else .noInstrument,
   fun s => if s = "INFY" then .ok yInf else .noQuote⟩

/-! ## Helper lemmas -/

theorem find?_append_of_none {α : Type} (p : α → Bool) (l1 l2 : List α)
    (h : ∀ x ∈ l1, p x = false) :
    List.find? p (l1 ++ l2) = List.find? p l2 := by
  induction l1 with
  | nil => rfl
  | cons a l ih =>
    have ha : p a = false := h a (List.mem_cons_self a l)
    rw [List.cons_append, List.find?_cons_of_neg _ (by simp [ha])]
    exact ih (fun x hx => h x (List.mem_cons_of_mem a hx))

theorem mapGet_mapSet_self {α : Type} (c : CacheMap α) (k : String) (v : CacheEntry α) :
    mapGet (mapSet c k v) k = some v := by
  unfold mapGet mapSet
  rw [find?_append_of_none]
  · rw [List.find?_cons_of_pos _ (by simp)]
    rfl
  · intro x hx
    have hmem := List.of_mem_filter hx
    exact beq_eq_false_iff_ne.mpr (bne_iff_ne.mp hmem)

theorem mapGet_mapDelete_ne {α : Type} (c : CacheMap α) (k k2 : String) (h : k2 ≠ k) :
    mapGet (mapDelete c k) k2 = mapGet c k2 := by
  unfold mapGet mapDelete
  induction c with
  | nil => rfl
  | cons a l ih =>
    rw [List.filter_cons]
    by_cases hk : a.1 = k
    · have h1 : (a.1 != k) = false := by simp [hk]
      have h2 : (a.1 == k2) = false := by
        subst hk; exact beq_eq_false_iff_ne.mpr (fun hh => h hh.symm)
      rw [h1]
      simp only [Bool.false_eq_true, if_false]
      rw [List.find?_cons_of_neg _ (by simp [h2])]
      exact ih
    · have h1 : (a.1 != k) = true := by simp [hk]
      rw [h1, if_pos rfl]
      by_cases hk2 : a.1 = k2
      · rw [List.find?_cons_of_pos _ (by simp [hk2]),
          List.find?_cons_of_pos _ (by simp [hk2])]
      · have h2 : (a.1 == k2) = false := beq_eq_false_iff_ne.mpr hk2
        rw [List.find?_cons_of_neg _ (by simp [h2]),
          List.find?_cons_of_neg _ (by simp [h2])]
        exact ih

theorem getCachedData_some {α : Type} (now : Int) (c : CacheMap α) (k : String)
    (e : CacheEntry α) (h : mapGet c k = some e) :
    getCachedData now c k =
      if now - e.timestamp < e.duration then (some e.data, c) else (none, mapDelete c k) := by
  unfold getCachedData
  rw [h]

theorem getCachedData_none {α : Type} (now : Int) (c : CacheMap α) (k : String)
    (h : mapGet c k = none) :
    getCachedData now c k = (none, mapDelete c k) := by
  unfold getCachedData
  rw [h]

/-! ## C6: cache TTL boundary -/

/-- C6: a cache entry written at time `t0` with ttl `T` is returned by a
`get` at any time strictly before `t0 + T`, and a `get` at or after
`t0 + T` reports a miss (returns null). -/
theorem cacheTtlRespected {α : Type} (c : CacheMap α) (k : String) (d : α)
    (T t0 t : Int) :
    (t < t0 + T → (getCachedData t (setCachedData t0 c k d T) k).1 = some d) ∧
    (t0 + T ≤ t → (getCachedData t (setCachedData t0 c k d T) k).1 = none) := by
  have hget := getCachedData_some t (setCachedData t0 c k d T) k
    ⟨d, t0, T⟩ (mapGet_mapSet_self c k ⟨d, t0, T⟩)
  constructor
  · intro h
    rw [hget, if_pos (by simpa using (by omega : t - t0 < T))]
  · intro h
    rw [hget, if_neg (by simpa using (by omega : ¬(t - t0 < T)))]

/-- Witness for C6 at a concrete entry: a hit one tick before expiry and a
miss exactly at expiry. -/
theorem cacheTtlRespectedWitness :
    (getCachedData 4 (setCachedData 0 ([] : CacheMap Nat) "k" 7 5) "k").1 = some 7 ∧
    (getCachedData 5 (setCachedData 0 ([] : CacheMap Nat) "k" 7 5) "k").1 = none :=
  ⟨(cacheTtlRespected [] "k" 7 5 0 4).1 (by decide),
   (cacheTtlRespected [] "k" 7 5 0 5).2 (by decide)⟩

/-! ## C7: cache key order dependence -/

/-- C7 counterexample: the batch cache key joins the symbols in request
order without sorting, so the permuted lists `["TCS","INFY"]` and
`["INFY","TCS"]` produce different keys, contrary to the claim that
permutations share a cache entry. -/
theorem cacheKeyPermutationCounterexample :
    cacheKey ["TCS", "INFY"] ≠ cacheKey ["INFY", "TCS"] := by decide

/-- C7 amended: the cache key is order-dependent — `["TCS","INFY"]` maps to
`stocks_TCS_INFY` and `["INFY","TCS"]` to `stocks_INFY_TCS`, two distinct
keys, so permuted requests hit different cache entries. -/
theorem cacheKeyOrderDependent :
    cacheKey ["TCS", "INFY"] = "stocks_TCS_INFY" ∧
    cacheKey ["INFY", "TCS"] = "stocks_INFY_TCS" ∧
    cacheKey ["TCS", "INFY"] ≠ cacheKey ["INFY", "TCS"] := by
  refine ⟨by decide, by decide, by decide⟩

/-! ## C8: reads are not effect-free -/

/-- C8 counterexample: reading the key of an expired entry deletes that
entry — the map after the read differs from the map before it, contrary to
the claim that a get never modifies the cache state. -/
theorem cacheGetReadEvictionCounterexample :
    (getCachedData 10 ([("k", ⟨0, 0, 5⟩)] : CacheMap Nat) "k").2
      ≠ [("k", ⟨0, 0, 5⟩)] := by decide

/-- C8 amended: a get that hits a fresh entry leaves the cache unchanged,
while a get that misses (absent key or expired entry) deletes that key on
the read path and leaves every other entry unchanged. -/
theorem cacheGetFrame {α : Type} (now : Int) (c : CacheMap α) (k : String) :
    ((getCachedData now c k).1.isSome = true → (getCachedData now c k).2 = c) ∧
    ((getCachedData now c k).1 = none →
      (getCachedData now c k).2 = mapDelete c k ∧
      ∀ k2, k2 ≠ k → mapGet ((getCachedData now c k).2) k2 = mapGet c k2) := by
  cases hg : mapGet c k with
  | none =>
    rw [getCachedData_none now c k hg]
    exact ⟨fun h => by simp at h,
      fun _ => ⟨rfl, fun k2 hk2 => mapGet_mapDelete_ne c k k2 hk2⟩⟩
  | some e =>
    rw [getCachedData_some now c k e hg]
    by_cases hf : now - e.timestamp < e.duration
    · rw [if_pos hf]
      exact ⟨fun _ => rfl, fun h => by simp at h⟩
    · rw [if_neg hf]
      exact ⟨fun h => by simp at h,
        fun _ => ⟨rfl, fun k2 hk2 => mapGet_mapDelete_ne c k k2 hk2⟩⟩

/-- Witness for C8 amended: a fresh hit leaves a concrete one-entry cache
unchanged; an expired read deletes exactly that key. -/
theorem cacheGetFrameWitness :
    (getCachedData 1 ([("k", ⟨3, 0, 5⟩)] : CacheMap Nat) "k").2 = [("k", ⟨3, 0, 5⟩)] ∧
    (getCachedData 10 ([("k", ⟨3, 0, 5⟩)] : CacheMap Nat) "k").2
      = mapDelete [("k", ⟨3, 0, 5⟩)] "k" :=
  ⟨(cacheGetFrame 1 [("k", ⟨3, 0, 5⟩)] "k").1 (by decide),
   ((cacheGetFrame 10 [("k", ⟨3, 0, 5⟩)] "k").2 (by decide)).1⟩

/-! ## C4 and C5: rate limiter -/

/-- C4: evaluation of the limiter at the failing input `maxCalls = 1`,
`timeWindow = 10`, three back-to-back acquisitions starting at time 0.  The
grants happen at times 0, 10 and 10 — two grants inside the trailing window
`(0, 10]`, exceeding `maxCalls` — because the blocked second call, after its
wait, re-checks the quota against the empty `calls` array of a freshly
created limiter (`createRateLimiter(maxCalls, timeWindow)()`) and records
its timestamp only into that discarded fresh array: the live closure's
array still holds `[0]` after the second call is granted. -/
theorem rateLimiterWindowViolation :
    (rlRun 1 10 3 0 []).1 = [0, 10, 10] ∧
    (((rlRun 1 10 3 0 []).1).filter (fun t => decide (0 < t) && decide (t ≤ 10))).length = 2 ∧
    1 < 2 ∧
    (rlAcquire 1 10 0 [0]).grantTime = 10 ∧
    (rlAcquire 1 10 0 [0]).calls = [0] := by decide

theorem dropWhile_replicate_zero (p : Int → Bool) (h : p 0 = false) (j : Nat) :
    List.dropWhile p (List.replicate j 0) = List.replicate j 0 := by
  cases j with
  | zero => rfl
  | succ n => simp [List.replicate_succ, List.dropWhile_cons, h]

theorem rlRun_immediate (N : Nat) (W : Int) (hW : 0 < W) :
    ∀ k j, j + k ≤ N → rlRun N W k 0 (List.replicate j 0) =
      (List.replicate k 0, 0, List.replicate (j + k) 0) := by
  intro k
  induction k with
  | zero => intro j h; simp [rlRun]
  | succ n ih =>
    intro j h
    have hp : (fun t => decide (t ≤ 0 - W)) (0 : Int) = false := by
      simp; omega
    have hdrop := dropWhile_replicate_zero (fun t => decide (t ≤ 0 - W)) hp j
    have hlen : ¬(N ≤ (List.replicate j (0 : Int)).length) := by
      simp [List.length_replicate]; omega
    rw [rlRun]
    simp only [rlAcquire, hdrop, hlen, if_false, List.length_replicate]
    rw [if_neg (by simpa using hlen)]
    simp only
    rw [← List.replicate_succ' j (0 : Int)]
    rw [ih (j + 1) (by omega)]
    have : j + 1 + n = j + (n + 1) := by omega
    rw [this]
    simp [List.replicate_succ]

/-- C5: with `maxCalls = N` over window `W`, after `N` back-to-back
acquisitions starting at time 0 the `(N+1)`-th acquisition is delayed by
strictly more than 0 and at most `W` milliseconds. -/
theorem rateLimiterExcessDelay (N : Nat) (W : Int) (hN : 1 ≤ N) (hW : 0 < W) :
    0 < (rlAcquire N W (rlRun N W N 0 []).2.1 (rlRun N W N 0 []).2.2).delay ∧
    (rlAcquire N W (rlRun N W N 0 []).2.1 (rlRun N W N 0 []).2.2).delay ≤ W := by
  have h0 : rlRun N W N 0 [] = (List.replicate N 0, 0, List.replicate N 0) := by
    have := rlRun_immediate N W hW N 0 (by omega)
    simpa using this
  rw [h0]
  obtain ⟨m, rfl⟩ : ∃ m, N = m + 1 := ⟨N - 1, by omega⟩
  have hp : (fun t => decide (t ≤ 0 - W)) (0 : Int) = false := by
    simp; omega
  have hdrop := dropWhile_replicate_zero (fun t => decide (t ≤ 0 - W)) hp (m + 1)
  simp only [rlAcquire, hdrop, List.length_replicate, le_refl, if_true, if_pos]
  simp only [List.replicate_succ, List.headD_cons]
  omega

/-- Witness for C5 at `maxCalls = 2`, `W = 60000` (the backend limiter's
actual configuration): the third back-to-back call is delayed by a positive
amount of at most one window. -/
theorem rateLimiterExcessDelayWitness :
    0 < (rlAcquire 2 60000 (rlRun 2 60000 2 0 []).2.1 (rlRun 2 60000 2 0 []).2.2).delay ∧
    (rlAcquire 2 60000 (rlRun 2 60000 2 0 []).2.1 (rlRun 2 60000 2 0 []).2.2).delay ≤ 60000 :=
  rateLimiterExcessDelay 2 60000 (by decide) (by decide)

/-! ## C1: total provider failure on the batch endpoint -/

theorem yahooStep_fail (oracle : String → YahooResp) (acc : List SQuote) (s : String)
    (h : yahooSymbolFails (oracle s) = true) :
    yahooStep oracle acc s = acc := by
  unfold yahooStep
  unfold yahooSymbolFails at h
  cases ho : oracle s with
  | ok d =>
    rw [ho] at h
    simp only at h
    have hn : numTruthy d.regularMarketPrice = false := by
      cases hnn : numTruthy d.regularMarketPrice
      · rfl
      · rw [hnn] at h; simp at h
    simp [hn]
  | reqError m => rfl
  | noQuote => rfl

theorem yahooFold_fail (oracle : String → YahooResp) (l : List String)
    (h : ∀ s ∈ l, yahooSymbolFails (oracle s) = true) :
    ∀ acc, l.foldl (yahooStep oracle) acc = acc := by
  induction l with
  | nil => intro acc; rfl
  | cons a l ih =>
    intro acc
    rw [List.foldl_cons, yahooStep_fail oracle acc a (h a (List.mem_cons_self a l))]
    exact ih (fun s hs => h s (List.mem_cons_of_mem a hs)) acc

theorem upstoxStep_fail (oracle : String → UpstoxResp) (acc : List SQuote) (s : String)
    (h : upstoxSymbolFails (oracle s) = true) :
    upstoxStep oracle acc s = acc := by
  unfold upstoxStep
  unfold upstoxSymbolFails at h
  cases ho : oracle s with
  | ok d => rw [ho] at h; simp at h
  | noInstrument => rfl
  | reqError m => rfl
  | notSuccess => rfl

theorem upstoxFold_fail (oracle : String → UpstoxResp) (l : List String)
    (h : ∀ s ∈ l, upstoxSymbolFails (oracle s) = true) :
    ∀ acc, l.foldl (upstoxStep oracle) acc = acc := by
  induction l with
  | nil => intro acc; rfl
  | cons a l ih =>
    intro acc
    rw [List.foldl_cons, upstoxStep_fail oracle acc a (h a (List.mem_cons_self a l))]
    exact ih (fun s hs => h s (List.mem_cons_of_mem a hs)) acc

theorem filter_no_results (symbols : List String) :
    symbols.filter (fun s => !(([] : List SQuote).any (fun r => r.symbol == s))) = symbols := by
  induction symbols with
  | nil => rfl
  | cons a l ih => rw [List.filter_cons, if_pos (by simp [List.any]), ih]

/-- C1 amended: when every configured provider fails for every requested
symbol, the batch endpoint returns the explicit 503 total-failure response
with an empty results list and no fabricated Quote records, but its errors
list holds exactly one record per provider whose fetch threw a
provider-level error: one `upstox` record when the access token is missing
and none otherwise — never one record per configured provider, because
Yahoo per-symbol failures are swallowed inside `fetchFromYahoo`, so
`errors.length` stays strictly below the number of configured providers. -/
theorem batchTotalFailure (env : BatchEnv) (symbols : List String)
    (hne : symbols ≠ [])
    (hlen : symbols.length ≤ 20)
    (hyah : ∀ s ∈ symbols, yahooSymbolFails (env.yahoo s) = true)
    (hup : env.upstoxToken = true → ∀ s ∈ symbols, upstoxSymbolFails (env.upstox s) = true) :
    batchHandler env symbols "auto" =
      (.svcUnavailable "All stock data sources failed"
        "Unable to fetch stock data from any API provider"
        (if env.upstoxToken then []
         else [⟨"upstox", "Upstox access token not configured", symbols⟩]),
       [("upstox", symbols), ("yahoo", symbols)]) ∧
    (if env.upstoxToken then ([] : List ProviderError)
     else [⟨"upstox", "Upstox access token not configured", symbols⟩]).length
      < ["upstox", "yahoo"].length := by
  have hie : symbols.isEmpty = false := by
    cases symbols with
    | nil => exact absurd rfl hne
    | cons a l => rfl
  have hlen0 : ¬(symbols.length ≤ 0) := by
    cases symbols with
    | nil => exact absurd rfl hne
    | cons a l => simp
  have hyfold : (symbols.take 10).foldl (yahooStep env.yahoo) [] = [] :=
    yahooFold_fail env.yahoo (symbols.take 10)
      (fun s hs => hyah s (List.take_subset 10 symbols hs)) []
  refine ⟨?_, ?_⟩
  · cases htok : env.upstoxToken with
    | false =>
      simp [batchHandler, batchStep, fetchSource, fetchFromUpstox, fetchFromYahoo,
        hie, hlen, hlen0, filter_no_results, hyfold, htok]
    | true =>
      have hufold : (symbols.take 10).foldl (upstoxStep env.upstox) [] = [] :=
        upstoxFold_fail env.upstox (symbols.take 10)
          (fun s hs => hup htok s (List.take_subset 10 symbols hs)) []
      simp [batchHandler, batchStep, fetchSource, fetchFromUpstox, fetchFromYahoo,
        hie, hlen, hlen0, filter_no_results, hyfold, hufold, htok]
  · cases htok : env.upstoxToken <;> simp [htok]

/-- Witness for C1 amended: Upstox token missing and every Yahoo request
timing out for `["TCS","INFY"]` yields the 503 response with exactly one
error record. -/
theorem batchTotalFailureWitness :
    batchHandler ⟨false, fun _ => UpstoxResp.noInstrument,
        fun _ => YahooResp.reqError "timeout of 8000ms exceeded"⟩ ["TCS", "INFY"] "auto" =
      (BatchResponse.svcUnavailable "All stock data sources failed"
        "Unable to fetch stock data from any API provider"
        [⟨"upstox", "Upstox access token not configured", ["TCS", "INFY"]⟩],
       [("upstox", ["TCS", "INFY"]), ("yahoo", ["TCS", "INFY"])]) := by
  have h := batchTotalFailure ⟨false, fun _ => UpstoxResp.noInstrument,
      fun _ => YahooResp.reqError "timeout of 8000ms exceeded"⟩ ["TCS", "INFY"]
      (by decide) (by decide) (fun s hs => rfl) (fun hcontra => absurd hcontra (by decide))
  simpa using h.1

/-- C1 counterexample: with both configured providers failing for the whole
batch `["TCS"]` (Upstox misses its access token and throws; Yahoo times out
per symbol, which `fetchFromYahoo` swallows), the endpoint returns the
explicit 503 failure with empty results — but `errors` holds a single
`upstox` record, so `errors.length = 1 ≠ 2 = providers.length`, refuting
the claimed one-record-per-provider shape. -/
theorem batchFallbackExhaustionCounterexample :
    batchHandler ⟨false, fun _ => UpstoxResp.noInstrument,
        fun _ => YahooResp.reqError "timeout of 8000ms exceeded"⟩ ["TCS"] "auto" =
      (BatchResponse.svcUnavailable "All stock data sources failed"
        "Unable to fetch stock data from any API provider"
        [⟨"upstox", "Upstox access token not configured", ["TCS"]⟩],
       [("upstox", ["TCS"]), ("yahoo", ["TCS"])]) ∧
    ¬([(⟨"upstox", "Upstox access token not configured", ["TCS"]⟩ : ProviderError)].length
        = ["upstox", "yahoo"].length) := by
  exact ⟨by decide, by decide⟩

/-! ## C3: partial success falls through to the next provider -/

/-- C3: for a batch of three symbols where the first provider (Upstox)
returns quotes for exactly the first two and fails for the third, the
second provider (Yahoo) is invoked with exactly the one remaining symbol,
and when it succeeds for that symbol the final results contain all three
quote entries. -/
theorem batchPartialSuccess (env : BatchEnv) (a b c : String)
    (da db : UpstoxData) (dc : YahooQuoteData)
    (htok : env.upstoxToken = true)
    (ha : env.upstox a = .ok da) (hb : env.upstox b = .ok db)
    (hc : upstoxSymbolFails (env.upstox c) = true)
    (hyc : env.yahoo c = .ok dc)
    (hprice : numTruthy dc.regularMarketPrice = true)
    (hac : (a == c) = false) (hbc : (b == c) = false) :
    batchHandler env [a, b, c] "auto" =
      (.ok [upstoxQuote a da, upstoxQuote b db, yahooQuote c dc] [],
       [("upstox", [a, b, c]), ("yahoo", [c])]) := by
  have hac2 : ¬(a = c) := by
    intro hh
    rw [hh] at hac
    simp at hac
  have hbc2 : ¬(b = c) := by
    intro hh
    rw [hh] at hbc
    simp at hbc
  cases hco : env.upstox c with
  | ok d =>
    rw [hco] at hc
    simp [upstoxSymbolFails] at hc
  | noInstrument =>
    simp [batchHandler, batchStep, fetchSource, fetchFromUpstox, fetchFromYahoo,
      upstoxStep, yahooStep, upstoxQuote, ha, hb, hco, hyc, hprice, htok, hac2, hbc2]
  | reqError m =>
    simp [batchHandler, batchStep, fetchSource, fetchFromUpstox, fetchFromYahoo,
      upstoxStep, yahooStep, upstoxQuote, ha, hb, hco, hyc, hprice, htok, hac2, hbc2]
  | notSuccess =>
    simp [batchHandler, batchStep, fetchSource, fetchFromUpstox, fetchFromYahoo,
      upstoxStep, yahooStep, upstoxQuote, ha, hb, hco, hyc, hprice, htok, hac2, hbc2]

/-- Witness for C3: Upstox returns RELIANCE and TCS, misses INFY; Yahoo is
then invoked with exactly `["INFY"]` and the response carries all three
quotes. -/
theorem batchPartialSuccessWitness :
    batchHandler envC3 ["RELIANCE", "TCS", "INFY"] "auto" =
      (.ok [upstoxQuote "RELIANCE" uRel, upstoxQuote "TCS" uTcs, yahooQuote "INFY" yInf] [],
       [("upstox", ["RELIANCE", "TCS", "INFY"]), ("yahoo", ["INFY"])]) :=
  batchPartialSuccess envC3 "RELIANCE" "TCS" "INFY" uRel uTcs yInf rfl
    (by decide) (by decide) (by decide) (by decide) (by decide) (by decide) (by decide)

/-! ## C2: total failure at the gateway -/

/-- C2 amended: on a total provider failure (the backend request threw),
`EnhancedRealAPIService.getStockData` surfaces the explicit error
`Failed to fetch stock data: ...` provided the durable `lastKnownStockData`
snapshot cannot mask it (absent or at least 24 hours old) — that snapshot,
when younger, is previously fetched real data, not fabricated data.
`APIService.getStockData`, by contrast, never surfaces an error: on the
same total failure it silently returns the synthetic records of
`generateRealisticStockData`. -/
theorem totalFailureSurfacing :
    (∀ (env : EnhancedEnv) (now : Int) (cache : CacheMap (List StockRec))
        (symbols : List String) (e : String),
      (getCachedData now cache (cacheKey symbols)).1 = none →
      env.isOnline = true →
      env.backendResult = .error e →
      fallbackUnusable env now →
      (enhancedGetStockData env now cache symbols).1
        = .error ("Failed to fetch stock data: " ++ e)) ∧
    (∀ (env : ApiEnv) (now : Int) (cache : CacheMap (List StockRec))
        (symbols : List String) (e : String),
      (getCachedData now cache (cacheKey symbols)).1 = none →
      env.backendData = .error e →
      (apiGetStockData env now cache symbols).1
        = .ok (generateRealisticStockData env.mockPrices env.rand symbols)) := by
  constructor
  · intro env now cache symbols e hmiss hon hb hfb
    cases hpair : getCachedData now cache (cacheKey symbols) with
    | mk r c1 =>
      rw [hpair] at hmiss
      simp only at hmiss
      subst hmiss
      cases hfs : env.fallbackStore with
      | none =>
        simp [enhancedGetStockData, hpair, hon, hb, hfs]
      | some p =>
        obtain ⟨ts, d⟩ := p
        unfold fallbackUnusable at hfb
        rw [hfs] at hfb
        simp only at hfb
        simp [enhancedGetStockData, hpair, hon, hb, hfs]
        rw [if_neg (by omega)]
  · intro env now cache symbols e hmiss hb
    cases hpair : getCachedData now cache (cacheKey symbols) with
    | mk r c1 =>
      rw [hpair] at hmiss
      simp only at hmiss
      subst hmiss
      cases hcond : (env.backendAvailable && env.isOnline) <;>
        simp [apiGetStockData, hpair, hb, hcond]

/-- Witness for C2 amended: with the backend request failing and no usable
snapshot, the Enhanced variant surfaces the error while the self-contained
variant returns synthetic data. -/
theorem totalFailureSurfacingWitness :
    (enhancedGetStockData ⟨true, .error "No stock data received from backend", none⟩
        0 [] ["TCS"]).1
      = .error ("Failed to fetch stock data: " ++ "No stock data received from backend") ∧
    (apiGetStockData ⟨true, true, .error "Backend error: 503", defaultMockPrices, fun _ => 1 / 2⟩
        0 [] ["TCS"]).1
      = .ok (generateRealisticStockData defaultMockPrices (fun _ => 1 / 2) ["TCS"]) :=
  ⟨totalFailureSurfacing.1 ⟨true, .error "No stock data received from backend", none⟩
      0 [] ["TCS"] "No stock data received from backend" rfl rfl rfl trivial,
   totalFailureSurfacing.2 ⟨true, true, .error "Backend error: 503", defaultMockPrices,
      fun _ => 1 / 2⟩ 0 [] ["TCS"] "Backend error: 503" rfl rfl⟩

/-- C2 counterexample: `APIService.getStockData` with every provider failed
(the backend batch request threw a 503) returns a nonempty list of
synthetic records carrying no provider source — fabricated data in place of
an error — refuting the claim that the gateway surfaces an explicit typed
error and never substitutes data. -/
theorem totalFailureFabricationCounterexample :
    (apiGetStockData ⟨true, true, .error "Backend error: 503", defaultMockPrices, fun _ => 1 / 2⟩
        0 [] ["TCS"]).1
      = .ok (generateRealisticStockData defaultMockPrices (fun _ => 1 / 2) ["TCS"]) ∧
    generateRealisticStockData defaultMockPrices (fun _ => 1 / 2) ["TCS"] ≠ [] ∧
    (generateRealisticStockData defaultMockPrices (fun _ => 1 / 2) ["TCS"]).map
        (fun r => r.source) = [none] := by
  refine ⟨rfl, by decide, by decide⟩

/-! ## C9: searchStocks is total -/

/-- C9: `searchStocks` returns the empty list, with no cache or network
interaction, for a null or empty query; and whenever its internal fetches
all fail (every `getStockData` call and every backend search request
throws), it still resolves to a list — the empty one — instead of
propagating an exception. -/
theorem searchStocksTotal (env : SearchEnv) (query : Option String) :
    ((query = none ∨ query = some "") → searchStocksM env query = ([], [])) ∧
    ((∀ syms, ∃ e, env.getStockDataF syms = Except.error e) →
     (∀ q, ∃ e, env.backendSearchF q = Except.error e) →
     (searchStocksM env query).1 = []) := by
  constructor
  · rintro (rfl | rfl)
    · rfl
    · rfl
  · intro hg hb
    cases query with
    | none => rfl
    | some q =>
      simp only [searchStocksM]
      by_cases hlen : q.length < 1
      · rw [if_pos hlen]
      · rw [if_neg hlen]
        by_cases hem : (searchExactMatches (jsToUpper (sanitizeInput (some q)))).isEmpty = false
        · rw [if_pos hem]
          obtain ⟨e1, he1⟩ :=
            hg ((searchExactMatches (jsToUpper (sanitizeInput (some q)))).take 10)
          rw [he1]
        · rw [if_neg hem]
          obtain ⟨e2, he2⟩ := hb (jsToUpper (sanitizeInput (some q)))
          rw [he2]

/-- Witness for C9: the empty query returns `([], [])` outright, and with
both collaborators always throwing, a real query still resolves to `[]`. -/
theorem searchStocksTotalWitness :
    searchStocksM ⟨fun _ => .error "backend down", fun _ => .error "search down"⟩
        (some "") = ([], []) ∧
    (searchStocksM ⟨fun _ => .error "backend down", fun _ => .error "search down"⟩
        (some "TCS")).1 = [] :=
  ⟨(searchStocksTotal ⟨fun _ => .error "backend down", fun _ => .error "search down"⟩
      (some "")).1 (Or.inr rfl),
   (searchStocksTotal ⟨fun _ => .error "backend down", fun _ => .error "search down"⟩
      (some "TCS")).2 (fun _ => ⟨"backend down", rfl⟩) (fun _ => ⟨"search down", rfl⟩)⟩

/-! ## C10: sanitizeInput and its use in searchStocks -/

theorem mem_of_dropWhile {α : Type} (p : α → Bool) {l : List α} {a : α}
    (h : a ∈ l.dropWhile p) : a ∈ l :=
  (List.dropWhile_sublist p).subset h

theorem dropWhile_head_false {α : Type} (p : α → Bool) :
    ∀ (l : List α) (a : α), (l.dropWhile p).head? = some a → p a = false := by
  intro l
  induction l with
  | nil => intro a h; simp at h
  | cons x xs ih =>
    intro a h
    cases hx : p x with
    | true =>
      rw [List.dropWhile_cons, hx, if_pos rfl] at h
      exact ih a h
    | false =>
      rw [List.dropWhile_cons, hx, if_neg (by simp)] at h
      rw [List.head?_cons] at h
      injection h with h2
      rw [← h2]
      exact hx

theorem dropWhile_isSuffix {α : Type} (p : α → Bool) : ∀ (l : List α), l.dropWhile p <:+ l := by
  intro l
  induction l with
  | nil => exact List.suffix_refl _
  | cons x xs ih =>
    cases hx : p x with
    | true =>
      rw [List.dropWhile_cons, hx, if_pos rfl]
      exact ih.trans (List.suffix_cons x xs)
    | false =>
      rw [List.dropWhile_cons, hx, if_neg (by simp)]

theorem reverse_dropWhile_reverse_isPrefix {α : Type} (p : α → Bool) (l : List α) :
    (l.reverse.dropWhile p).reverse <+: l := by
  obtain ⟨t, ht⟩ := dropWhile_isSuffix p l.reverse
  refine ⟨t.reverse, ?_⟩
  have h2 := congrArg List.reverse ht
  rw [List.reverse_append, List.reverse_reverse] at h2
  exact h2

theorem prefix_head_eq {α : Type} {m l : List α} (h : m <+: l) {a : α}
    (hm : m.head? = some a) : l.head? = some a := by
  obtain ⟨t, ht⟩ := h
  cases m with
  | nil => simp at hm
  | cons x xs =>
    rw [List.head?_cons] at hm
    injection hm with h2
    rw [← ht, List.cons_append, List.head?_cons, h2]

theorem head?_take_pos {α : Type} (l : List α) (n : Nat) (hn : 0 < n) :
    (l.take n).head? = l.head? := by
  cases l with
  | nil => simp
  | cons x xs =>
    cases n with
    | zero => exact absurd hn (by simp)
    | succ m => simp [List.take]

/-- C10 counterexample: the code sanitizes by remove-banned, then trim, then
truncate to 100 characters — in that order — so an input whose trimmed form
is longer than 100 characters can be cut inside interior whitespace, leaving
a result that ends in whitespace and is therefore not a trimmed string: for
`"a" ++ 100 spaces ++ "b"` the output is `"a"` followed by 99 spaces. -/
theorem sanitizeNotTrimmedCounterexample :
    sanitizeInput (some ("a" ++ String.mk (List.replicate 100 ' ') ++ "b"))
      ≠ jsTrimStr (sanitizeInput (some ("a" ++ String.mk (List.replicate 100 ' ') ++ "b"))) := by
  decide

/-- C10 amended: `sanitizeInput` returns the empty string on a non-string
input, and otherwise a string of length at most 100 that contains none of
the characters stripped by its regular expression and starts with no
whitespace — but it is not always trimmed, because the 100-character
truncation runs after the trim and can leave trailing whitespace.  Every
backend search query issued by `searchStocks` is the sanitized, upper-cased
form of the raw query. -/
theorem sanitizeInputSpec :
    (sanitizeInput none = "") ∧
    (∀ input : Option String, (sanitizeInput input).data.length ≤ 100) ∧
    (∀ input : Option String, ∀ ch ∈ (sanitizeInput input).data, bannedChar ch = false) ∧
    (∀ input : Option String, ∀ ch, (sanitizeInput input).data.head? = some ch →
      jsWhitespace ch = false) ∧
    (∀ (env : SearchEnv) (q : Option String) (x : String),
      SearchEffect.backendSearch x ∈ (searchStocksM env q).2 →
      ∃ s, q = some s ∧ x = jsToUpper (sanitizeInput (some s))) := by
  refine ⟨rfl, ?_, ?_, ?_, ?_⟩
  · intro input
    cases input with
    | none => simp [sanitizeInput]
    | some s =>
      have h : (sanitizeInput (some s)).data
          = ((((s.data.filter (fun c => !bannedChar c)).dropWhile jsWhitespace).reverse.dropWhile
              jsWhitespace).reverse).take 100 := rfl
      rw [h, List.length_take]
      omega
  · intro input ch hch
    cases input with
    | none => simp [sanitizeInput] at hch
    | some s =>
      have hch2 : ch ∈ ((((s.data.filter (fun c => !bannedChar c)).dropWhile
          jsWhitespace).reverse.dropWhile jsWhitespace).reverse).take 100 := hch
      have h1 := List.take_subset 100 _ hch2
      rw [List.mem_reverse] at h1
      have h2 := mem_of_dropWhile jsWhitespace h1
      rw [List.mem_reverse] at h2
      have h3 := mem_of_dropWhile jsWhitespace h2
      have h4 := List.of_mem_filter h3
      simpa using h4
  · intro input ch h
    cases input with
    | none => simp [sanitizeInput] at h
    | some s =>
      have h0 : (((((s.data.filter (fun c => !bannedChar c)).dropWhile
          jsWhitespace).reverse.dropWhile jsWhitespace).reverse).take 100).head?
          = some ch := h
      rw [head?_take_pos _ 100 (by omega)] at h0
      have h5 := prefix_head_eq
        (reverse_dropWhile_reverse_isPrefix jsWhitespace
          ((s.data.filter (fun c => !bannedChar c)).dropWhile jsWhitespace)) h0
      exact dropWhile_head_false jsWhitespace _ ch h5
  · intro env q x hmem
    cases q with
    | none => simp [searchStocksM] at hmem
    | some q =>
      simp only [searchStocksM] at hmem
      by_cases hlen : q.length < 1
      · rw [if_pos hlen] at hmem
        simp at hmem
      · rw [if_neg hlen] at hmem
        by_cases hem : (searchExactMatches (jsToUpper (sanitizeInput (some q)))).isEmpty = false
        · rw [if_pos hem] at hmem
          cases hgd : env.getStockDataF
              ((searchExactMatches (jsToUpper (sanitizeInput (some q)))).take 10) with
          | ok l => rw [hgd] at hmem; simp at hmem
          | error e => rw [hgd] at hmem; simp at hmem
        · rw [if_neg hem] at hmem
          cases hbs : env.backendSearchF (jsToUpper (sanitizeInput (some q))) with
          | error e =>
            rw [hbs] at hmem
            simp at hmem
            exact ⟨q, rfl, hmem⟩
          | ok results =>
            rw [hbs] at hmem
            simp only [] at hmem
            by_cases hre : results.isEmpty = true
            · rw [if_pos hre] at hmem
              simp at hmem
              exact ⟨q, rfl, hmem⟩
            · rw [if_neg hre] at hmem
              cases hgd : env.getStockDataF ((results.map (fun r => r.symbol)).take 5) with
              | ok l =>
                rw [hgd] at hmem
                simp at hmem
                exact ⟨q, rfl, hmem⟩
              | error e =>
                rw [hgd] at hmem
                simp at hmem
                exact ⟨q, rfl, hmem⟩

/-- Witness for C10 amended: the non-string case, a concrete length bound,
and a concrete search whose backend query is the sanitized upper-cased
input. -/
theorem sanitizeInputSpecWitness :
    sanitizeInput none = "" ∧
    (sanitizeInput (some "  <b>TCS&</b>  ")).data.length ≤ 100 ∧
    (∃ s, (some "QQ" : Option String) = some s ∧
      "QQ" = jsToUpper (sanitizeInput (some s))) :=
  ⟨sanitizeInputSpec.1,
   sanitizeInputSpec.2.1 (some "  <b>TCS&</b>  "),
   sanitizeInputSpec.2.2.2.2 ⟨fun _ => .error "backend down", fun _ => .error "search down"⟩
     (some "QQ") "QQ" (by decide)⟩
